import Mathlib

/-!
Verification of the UnifiedLawMCP server (`mcp.py`): a shallow embedding of
its port selector, response resolver, prompt-templated tools and web-search
tool, together with theorems settling the specified properties.

Modelling conventions:
  * A configured model client is an `Option LLM`; `none` is the no-model
    (mock) configuration, `some invoke` a configured client whose
    `invoke prompt` either returns the textual content of the response
    (`Except.ok`) or raises an error with message `e` (`Except.error e`).
  * Raised Python exceptions become `Except.error`; a function that can
    raise returns `Except String _`.
  * The operating system's port state is a predicate `free : Nat → Bool`
    telling whether a bind on the loopback address at that port succeeds.
    The probe bind is released immediately, so successive probes within one
    call observe the same state, which is why a single fixed predicate
    models the scan faithfully.
  * A DuckDuckGo result record is a dictionary with optional `title`,
    `href`, `url` and `body` keys; Python string truthiness (`x or y`
    taking `y` when `x` is `None` or empty) is modelled by `pyTruthy`.
-/

/-- Substring containment: `needle` occurs contiguously inside `hay`. -/
def containsStr (hay needle : String) : Prop :=
  needle.data <:+: hay.data

instance (hay needle : String) : Decidable (containsStr hay needle) :=
  List.decidableInfix needle.data hay.data

/-- A model client as observed through `llm.invoke`: content on success,
raised-error message on failure. -/
def LLM : Type := String → Except String String

/-- `run_llm_or_mock` from mcp.py lines 53-60: if a client is configured,
invoke it and return the content; a raised error is caught and flattened
into the returned text; with no client, return the mock placeholder. -/
def run_llm_or_mock (llm : Option LLM) (prompt : String) : String :=
  match llm with
  | some invoke =>
    match invoke prompt with
    | Except.ok content => content
    | Except.error e => "[LLM error] " ++ e ++ "\n\nPrompt:\n" ++ prompt
  | none => "[Mock response] Prompt:\n\n" ++ prompt

/-- Prompt built by `rti_info` (mcp.py lines 67-72). -/
def rti_prompt (facts : String) : String :=
  "You are an expert on Indian RTI (Right to Information) process.\n\n" ++
  "FACTS: " ++ facts ++ "\n\n" ++
  "List relevant Acts/sections, the procedure to file an RTI (portals/forms/fees), " ++
  "and provide a short sample RTI application template with placeholders."

def rti_info (llm : Option LLM) (facts : String) : String :=
  run_llm_or_mock llm (rti_prompt facts)

/-- Prompt built by `divorce_info` (mcp.py lines 77-82). -/
def divorce_prompt (facts : String) : String :=
  "You are an expert on family law & divorce in India.\n\n" ++
  "FACTS: " ++ facts ++ "\n\n" ++
  "List likely legal provisions/sections, procedural steps (mediation, court filings), " ++
  "documents required, timelines, and provide a short sample petition template."

def divorce_info (llm : Option LLM) (facts : String) : String :=
  run_llm_or_mock llm (divorce_prompt facts)

/-- Prompt built by `consumer_complaint_info` (mcp.py lines 87-92). -/
def consumer_complaint_prompt (facts : String) : String :=
  "You are an expert on consumer protection in India.\n\n" ++
  "FACTS: " ++ facts ++ "\n\n" ++
  "List relevant portions of the Consumer Protection Act, how to approach consumer forums, " ++
  "documents to attach, approximate fees, and sample complaint structure."

def consumer_complaint_info (llm : Option LLM) (facts : String) : String :=
  run_llm_or_mock llm (consumer_complaint_prompt facts)

/-- Prompt built by `property_dispute_info` (mcp.py lines 97-102). -/
def property_dispute_prompt (facts : String) : String :=
  "You are an expert on property law in India.\n\n" ++
  "FACTS: " ++ facts ++ "\n\n" ++
  "Identify relevant statutes/sections, likely remedies (civil suit, injunction, possession), " ++
  "documents to gather, and next-step recommendations."

def property_dispute_info (llm : Option LLM) (facts : String) : String :=
  run_llm_or_mock llm (property_dispute_prompt facts)

/-- Prompt built by `workplace_issue_info` (mcp.py lines 107-112). -/
def workplace_issue_prompt (facts : String) : String :=
  "You are an expert on Indian labour & employment law.\n\n" ++
  "FACTS: " ++ facts ++ "\n\n" ++
  "Identify applicable statutes/sections (payment, termination, POSH if applicable), " ++
  "procedural steps, and an action plan (letters, conciliation, complaints)."

def workplace_issue_info (llm : Option LLM) (facts : String) : String :=
  run_llm_or_mock llm (workplace_issue_prompt facts)

/-- Prompt built by `family_law_info` (mcp.py lines 117-121). -/
def family_law_prompt (facts : String) : String :=
  "You are an expert on family law in India (maintenance, custody, adoption, guardianship).\n\n" ++
  "FACTS: " ++ facts ++ "\n\n" ++
  "List relevant legal provisions, likely steps, documents, and suggested next actions."

def family_law_info (llm : Option LLM) (facts : String) : String :=
  run_llm_or_mock llm (family_law_prompt facts)

/-- Prompt built by `cybercrime_info` (mcp.py lines 126-131). -/
def cybercrime_prompt (facts : String) : String :=
  "You are an expert on cybercrime law in India (IT Act, IPC supplements).\n\n" ++
  "FACTS: " ++ facts ++ "\n\n" ++
  "List likely offences and sections, steps for preservation of evidence, how to file a police complaint/FIR, " ++
  "and online portals to report cybercrime."

def cybercrime_info (llm : Option LLM) (facts : String) : String :=
  run_llm_or_mock llm (cybercrime_prompt facts)

/-- Prompt built by `guide_steps` (mcp.py lines 140-144). -/
def guide_steps_prompt (case_type : String) : String :=
  "You are a legal expert in Indian law. Provide a clear, step-by-step practical guide for a \x27" ++
  case_type ++ "\x27 case. " ++
  "Include relevant Acts, Sections, and Rules (e.g., RTI Act, 2005; Consumer Protection Act, 2019; Hindu Marriage Act, 1955) " ++
  "and explain how it\x27s relevant to the case. Also mention required documents, online portals, fees, and timelines."

def guide_steps (llm : Option LLM) (case_type : String) : String :=
  run_llm_or_mock llm (guide_steps_prompt case_type)

/-- Prompt built by `draft_letter` (mcp.py lines 150-154). -/
def draft_letter_prompt (case_type facts : String) : String :=
  "Draft a formal, editable legal letter for \x27" ++ case_type ++
  "\x27 based on these facts:\n\n" ++ facts ++ "\n\n" ++
  "Include placeholders like [Name], [Date], [Recipient]. " ++
  "Ensure the draft cites at least one relevant law or section (e.g., Section 6(1) of the RTI Act, 2005)."

def draft_letter (llm : Option LLM) (case_type facts : String) : String :=
  run_llm_or_mock llm (draft_letter_prompt case_type facts)

/-- One DuckDuckGo result record: a dictionary whose `title`, `href`, `url`
and `body` keys may each be absent. -/
structure SearchRecord where
  title : Option String
  href : Option String
  url : Option String
  body : Option String

/-- Python truthiness on an optional string: `None` and the empty string
are falsy. `x or y` is modelled as `(pyTruthy x).getD y`. -/
def pyTruthy : Option String → Option String
  | some s => if s = "" then none else some s
  | none => none

/-- The line `web_search` appends for one record (mcp.py lines 166-169):
title defaulting to "No title", link from `href` then `url` defaulting to
empty, snippet from `body` defaulting to empty. -/
def formatRecord (r : SearchRecord) : String :=
  "- " ++ (pyTruthy r.title).getD "No title" ++ "\n  " ++
  ((pyTruthy r.href).orElse (fun _ => pyTruthy r.url)).getD "" ++ "\n  " ++
  (pyTruthy r.body).getD ""

/-- `web_search` from mcp.py lines 158-174. `hasDDG` is the module-level
flag set at import time; `ddgText` is the outcome of constructing `DDGS()`
and calling `ddgs.text(query, max_results=5)`: the result records, or a
raised error's message. -/
def web_search (hasDDG : Bool) (ddgText : Except String (List SearchRecord))
    (query : String) : String :=
  if hasDDG then
    match ddgText with
    | Except.ok results =>
      let formatted := results.map formatRecord
      if formatted.isEmpty then "No results found."
      else String.intercalate "\n\n" formatted
    | Except.error e => "Search error: " ++ e
  else
    "[Search unavailable] DuckDuckGo not installed. Query was: " ++ query

/-- The scan loop of `get_free_port` (mcp.py lines 12-19) over an explicit
list of candidate ports: return the first port whose loopback bind
succeeds, else raise `RuntimeError("No free ports available")`. -/
def get_free_port_scan (free : Nat → Bool) : List Nat → Except String Nat
  | [] => Except.error "No free ports available"
  | p :: ps => if free p then Except.ok p else get_free_port_scan free ps

/-- `get_free_port` (mcp.py lines 10-19): scan `range(start_port, end_port)`
in ascending order. -/
def get_free_port (free : Nat → Bool) (start_port end_port : Nat) :
    Except String Nat :=
  get_free_port_scan free (List.range' start_port (end_port - start_port))

/-! ### Helper lemmas -/

theorem containsStr_intro (pre needle post hay : String)
    (h : pre ++ needle ++ post = hay) : containsStr hay needle := by
  subst h
  show needle.data <:+: (pre ++ needle ++ post).data
  simp [String.data_append]

theorem containsStr_append_left (m hay needle : String)
    (h : containsStr hay needle) : containsStr (m ++ hay) needle := by
  obtain ⟨s, t, hst⟩ := h
  exact ⟨m.data ++ s, t, by simp [String.data_append, ← hst, List.append_assoc]⟩

theorem containsStr_append_right (hay tail needle : String)
    (h : containsStr hay needle) : containsStr (hay ++ tail) needle := by
  obtain ⟨s, t, hst⟩ := h
  exact ⟨s, t ++ tail.data, by simp [String.data_append, ← hst, List.append_assoc]⟩

theorem containsStr_suffix (pre needle : String) :
    containsStr (pre ++ needle) needle :=
  ⟨pre.data, [], by simp⟩

theorem containsStr_refl (s : String) : containsStr s s :=
  ⟨[], [], by simp⟩

/-- On the mock path the resolver's output is the marker followed by the
prompt, so anything inside the prompt stays inside the output. -/
theorem mock_result_contains (p needle : String) (h : containsStr p needle) :
    containsStr (run_llm_or_mock none p) needle :=
  containsStr_append_left "[Mock response] Prompt:\n\n" p needle h

/-- The mock marker itself contains the word "Mock". -/
theorem mock_result_contains_Mock (p : String) :
    containsStr (run_llm_or_mock none p) "Mock" :=
  containsStr_append_right "[Mock response] Prompt:\n\n" p "Mock" (by decide)

/-- The scan returns the first free port of the candidate list
`range' s n`, together with the fact that everything below it was busy. -/
theorem get_free_port_scan_first (free : Nat → Bool) (n : Nat) :
    ∀ s : Nat, (∃ p, s ≤ p ∧ p < s + n ∧ free p = true) →
    ∃ q, get_free_port_scan free (List.range' s n) = Except.ok q ∧
      s ≤ q ∧ q < s + n ∧ free q = true ∧
      ∀ p, s ≤ p → p < q → free p = false := by
  induction n with
  | zero =>
    rintro s ⟨p, hsp, hlt, -⟩
    exact absurd hlt (by omega)
  | succ n ih =>
    rintro s ⟨p, hsp, hlt, hfree⟩
    rw [List.range'_succ]
    by_cases hs : free s = true
    · exact ⟨s, by simp [get_free_port_scan, hs], Nat.le_refl s, by omega, hs,
        fun r h1 h2 => absurd h2 (by omega)⟩
    · have hps : p ≠ s := fun he => hs (he ▸ hfree)
      obtain ⟨q, hq, h1, h2, h3, h4⟩ :=
        ih (s + 1) ⟨p, by omega, by omega, hfree⟩
      refine ⟨q, by simp [get_free_port_scan, hs, hq], by omega, by omega, h3, ?_⟩
      intro r hr1 hr2
      rcases Nat.eq_or_lt_of_le hr1 with he | hl
      · rw [← he]
        exact Bool.eq_false_iff.mpr hs
      · exact h4 r hl hr2

/-- If every candidate port of the list is busy, the scan raises the
exhaustion error. -/
theorem get_free_port_scan_exhausted (free : Nat → Bool) (n : Nat) :
    ∀ s : Nat, (∀ p, s ≤ p → p < s + n → free p = false) →
    get_free_port_scan free (List.range' s n) =
      Except.error "No free ports available" := by
  induction n with
  | zero => intro s _; rfl
  | succ n ih =>
    intro s h
    rw [List.range'_succ]
    have hs : free s = false := h s (Nat.le_refl s) (by omega)
    simp only [get_free_port_scan, hs]
    exact ih (s + 1) (fun p h1 h2 => h p (by omega) (by omega))

/-! ### Claim theorems -/

/-- Claim C1: for every prompt the resolver `run_llm_or_mock` returns a
string (it is a total function into `String`, so no exception reaches the
caller): with no client it returns the mock placeholder; with a client it
returns the content on success, and on a raised failure the flattened
error text. -/
theorem run_llm_or_mock_never_raises (llm : Option LLM) (prompt : String) :
    (llm = none →
      run_llm_or_mock llm prompt = "[Mock response] Prompt:\n\n" ++ prompt) ∧
    (∀ invoke, llm = some invoke →
      (∀ content, invoke prompt = Except.ok content →
        run_llm_or_mock llm prompt = content) ∧
      (∀ e, invoke prompt = Except.error e →
        run_llm_or_mock llm prompt =
          "[LLM error] " ++ e ++ "\n\nPrompt:\n" ++ prompt)) := by
  refine ⟨fun h => by subst h; rfl, fun invoke h => ⟨fun content hc => ?_, fun e he => ?_⟩⟩
  · subst h; simp [run_llm_or_mock, hc]
  · subst h; simp [run_llm_or_mock, he]

theorem run_llm_or_mock_never_raises_witness :
    run_llm_or_mock none "the facts" = "[Mock response] Prompt:\n\n" ++ "the facts" ∧
    run_llm_or_mock (some fun _ => Except.ok "legal advice") "the facts" = "legal advice" ∧
    run_llm_or_mock (some fun _ => Except.error "rate limited") "the facts" =
      "[LLM error] " ++ "rate limited" ++ "\n\nPrompt:\n" ++ "the facts" :=
  ⟨(run_llm_or_mock_never_raises none "the facts").1 rfl,
   ((run_llm_or_mock_never_raises (some fun _ => Except.ok "legal advice") "the facts").2
      (fun _ => Except.ok "legal advice") rfl).1 "legal advice" rfl,
   ((run_llm_or_mock_never_raises (some fun _ => Except.error "rate limited") "the facts").2
      (fun _ => Except.error "rate limited") rfl).2 "rate limited" rfl⟩

/-- Claim C4: when a configured client's invocation raises a failure `e`,
the resolver catches it and returns a normal string containing both the
failure's description and the original prompt. -/
theorem run_llm_or_mock_flattens_failure (invoke : LLM) (prompt e : String)
    (h : invoke prompt = Except.error e) :
    run_llm_or_mock (some invoke) prompt =
      "[LLM error] " ++ e ++ "\n\nPrompt:\n" ++ prompt ∧
    containsStr (run_llm_or_mock (some invoke) prompt) e ∧
    containsStr (run_llm_or_mock (some invoke) prompt) prompt := by
  have hr : run_llm_or_mock (some invoke) prompt =
      "[LLM error] " ++ e ++ "\n\nPrompt:\n" ++ prompt := by
    simp [run_llm_or_mock, h]
  refine ⟨hr, ?_, ?_⟩
  · rw [hr]
    exact containsStr_append_right _ _ _
      (containsStr_append_right _ _ _ (containsStr_suffix _ _))
  · rw [hr]
    exact containsStr_suffix _ _

theorem run_llm_or_mock_flattens_failure_witness :
    run_llm_or_mock (some fun _ => Except.error "connection refused") "prompt text" =
      "[LLM error] " ++ "connection refused" ++ "\n\nPrompt:\n" ++ "prompt text" ∧
    containsStr (run_llm_or_mock (some fun _ => Except.error "connection refused")
      "prompt text") "connection refused" ∧
    containsStr (run_llm_or_mock (some fun _ => Except.error "connection refused")
      "prompt text") "prompt text" :=
  run_llm_or_mock_flattens_failure (fun _ => Except.error "connection refused")
    "prompt text" "connection refused" rfl

/-- Claim C2: with no model client configured, each of the nine
prompt-templated tools returns the mock placeholder: the marker followed by
the full constructed prompt, hence a result containing the word "Mock" and
the original prompt text. -/
theorem tools_mock_placeholder (facts case_type : String) :
    (rti_info none facts = "[Mock response] Prompt:\n\n" ++ rti_prompt facts ∧
      containsStr (rti_info none facts) "Mock" ∧
      containsStr (rti_info none facts) (rti_prompt facts)) ∧
    (divorce_info none facts = "[Mock response] Prompt:\n\n" ++ divorce_prompt facts ∧
      containsStr (divorce_info none facts) "Mock" ∧
      containsStr (divorce_info none facts) (divorce_prompt facts)) ∧
    (consumer_complaint_info none facts =
        "[Mock response] Prompt:\n\n" ++ consumer_complaint_prompt facts ∧
      containsStr (consumer_complaint_info none facts) "Mock" ∧
      containsStr (consumer_complaint_info none facts) (consumer_complaint_prompt facts)) ∧
    (property_dispute_info none facts =
        "[Mock response] Prompt:\n\n" ++ property_dispute_prompt facts ∧
      containsStr (property_dispute_info none facts) "Mock" ∧
      containsStr (property_dispute_info none facts) (property_dispute_prompt facts)) ∧
    (workplace_issue_info none facts =
        "[Mock response] Prompt:\n\n" ++ workplace_issue_prompt facts ∧
      containsStr (workplace_issue_info none facts) "Mock" ∧
      containsStr (workplace_issue_info none facts) (workplace_issue_prompt facts)) ∧
    (family_law_info none facts = "[Mock response] Prompt:\n\n" ++ family_law_prompt facts ∧
      containsStr (family_law_info none facts) "Mock" ∧
      containsStr (family_law_info none facts) (family_law_prompt facts)) ∧
    (cybercrime_info none facts = "[Mock response] Prompt:\n\n" ++ cybercrime_prompt facts ∧
      containsStr (cybercrime_info none facts) "Mock" ∧
      containsStr (cybercrime_info none facts) (cybercrime_prompt facts)) ∧
    (guide_steps none case_type =
        "[Mock response] Prompt:\n\n" ++ guide_steps_prompt case_type ∧
      containsStr (guide_steps none case_type) "Mock" ∧
      containsStr (guide_steps none case_type) (guide_steps_prompt case_type)) ∧
    (draft_letter none case_type facts =
        "[Mock response] Prompt:\n\n" ++ draft_letter_prompt case_type facts ∧
      containsStr (draft_letter none case_type facts) "Mock" ∧
      containsStr (draft_letter none case_type facts) (draft_letter_prompt case_type facts)) :=
  ⟨⟨rfl, mock_result_contains_Mock _, mock_result_contains _ _ (containsStr_refl _)⟩,
   ⟨rfl, mock_result_contains_Mock _, mock_result_contains _ _ (containsStr_refl _)⟩,
   ⟨rfl, mock_result_contains_Mock _, mock_result_contains _ _ (containsStr_refl _)⟩,
   ⟨rfl, mock_result_contains_Mock _, mock_result_contains _ _ (containsStr_refl _)⟩,
   ⟨rfl, mock_result_contains_Mock _, mock_result_contains _ _ (containsStr_refl _)⟩,
   ⟨rfl, mock_result_contains_Mock _, mock_result_contains _ _ (containsStr_refl _)⟩,
   ⟨rfl, mock_result_contains_Mock _, mock_result_contains _ _ (containsStr_refl _)⟩,
   ⟨rfl, mock_result_contains_Mock _, mock_result_contains _ _ (containsStr_refl _)⟩,
   ⟨rfl, mock_result_contains_Mock _, mock_result_contains _ _ (containsStr_refl _)⟩⟩

theorem containsStr_app2 (a t1 t2 needle : String) :
    containsStr (((a ++ needle) ++ t1) ++ t2) needle :=
  containsStr_append_right _ _ _
    (containsStr_append_right _ _ _ (containsStr_suffix _ _))

theorem containsStr_app3 (a t1 t2 t3 needle : String) :
    containsStr ((((a ++ needle) ++ t1) ++ t2) ++ t3) needle :=
  containsStr_append_right _ _ _ (containsStr_app2 a t1 t2 needle)

theorem rti_prompt_contains (facts : String) :
    containsStr (rti_prompt facts) facts :=
  containsStr_app3 _ _ _ _ facts

theorem divorce_prompt_contains (facts : String) :
    containsStr (divorce_prompt facts) facts :=
  containsStr_app3 _ _ _ _ facts

theorem consumer_complaint_prompt_contains (facts : String) :
    containsStr (consumer_complaint_prompt facts) facts :=
  containsStr_app3 _ _ _ _ facts

theorem property_dispute_prompt_contains (facts : String) :
    containsStr (property_dispute_prompt facts) facts :=
  containsStr_app3 _ _ _ _ facts

theorem workplace_issue_prompt_contains (facts : String) :
    containsStr (workplace_issue_prompt facts) facts :=
  containsStr_app3 _ _ _ _ facts

theorem family_law_prompt_contains (facts : String) :
    containsStr (family_law_prompt facts) facts :=
  containsStr_app2 _ _ _ facts

theorem cybercrime_prompt_contains (facts : String) :
    containsStr (cybercrime_prompt facts) facts :=
  containsStr_app3 _ _ _ _ facts

theorem draft_letter_prompt_contains_facts (case_type facts : String) :
    containsStr (draft_letter_prompt case_type facts) facts :=
  containsStr_app3 _ _ _ _ facts

theorem draft_letter_prompt_contains_case (case_type facts : String) :
    containsStr (draft_letter_prompt case_type facts) case_type :=
  containsStr_append_right _ _ _ (containsStr_append_right _ _ _
    (containsStr_append_right _ _ _ (containsStr_append_right _ _ _
      (containsStr_append_right _ _ _ (containsStr_suffix _ _)))))

/-- Claim C3: every domain-specific tool embeds the caller's facts string
verbatim in its prompt, hence (on the no-model path) in its result; and
`draft_letter` with case_type "RTI request" and facts "want copy of file X"
embeds both verbatim in its prompt and mock result. -/
theorem domain_tools_embed_facts (facts : String) (_h : facts ≠ "") :
    (containsStr (rti_prompt facts) facts ∧
      containsStr (rti_info none facts) facts) ∧
    (containsStr (divorce_prompt facts) facts ∧
      containsStr (divorce_info none facts) facts) ∧
    (containsStr (consumer_complaint_prompt facts) facts ∧
      containsStr (consumer_complaint_info none facts) facts) ∧
    (containsStr (property_dispute_prompt facts) facts ∧
      containsStr (property_dispute_info none facts) facts) ∧
    (containsStr (workplace_issue_prompt facts) facts ∧
      containsStr (workplace_issue_info none facts) facts) ∧
    (containsStr (family_law_prompt facts) facts ∧
      containsStr (family_law_info none facts) facts) ∧
    (containsStr (cybercrime_prompt facts) facts ∧
      containsStr (cybercrime_info none facts) facts) ∧
    (containsStr (draft_letter_prompt "RTI request" "want copy of file X") "RTI request" ∧
      containsStr (draft_letter_prompt "RTI request" "want copy of file X") "want copy of file X" ∧
      containsStr (draft_letter none "RTI request" "want copy of file X") "RTI request" ∧
      containsStr (draft_letter none "RTI request" "want copy of file X") "want copy of file X") :=
  ⟨⟨rti_prompt_contains facts, mock_result_contains _ _ (rti_prompt_contains facts)⟩,
   ⟨divorce_prompt_contains facts, mock_result_contains _ _ (divorce_prompt_contains facts)⟩,
   ⟨consumer_complaint_prompt_contains facts,
     mock_result_contains _ _ (consumer_complaint_prompt_contains facts)⟩,
   ⟨property_dispute_prompt_contains facts,
     mock_result_contains _ _ (property_dispute_prompt_contains facts)⟩,
   ⟨workplace_issue_prompt_contains facts,
     mock_result_contains _ _ (workplace_issue_prompt_contains facts)⟩,
   ⟨family_law_prompt_contains facts,
     mock_result_contains _ _ (family_law_prompt_contains facts)⟩,
   ⟨cybercrime_prompt_contains facts,
     mock_result_contains _ _ (cybercrime_prompt_contains facts)⟩,
   ⟨draft_letter_prompt_contains_case "RTI request" "want copy of file X",
    draft_letter_prompt_contains_facts "RTI request" "want copy of file X",
    mock_result_contains _ _ (draft_letter_prompt_contains_case "RTI request" "want copy of file X"),
    mock_result_contains _ _ (draft_letter_prompt_contains_facts "RTI request" "want copy of file X")⟩⟩

theorem domain_tools_embed_facts_witness :
    containsStr (rti_prompt "I was denied information") "I was denied information" ∧
    containsStr (rti_info none "I was denied information") "I was denied information" :=
  (domain_tools_embed_facts "I was denied information" (by decide)).1

/-- Claim C5: with the search library available, an empty result set yields
exactly "No results found."; a non-empty result set (the library honouring
the requested bound of five) yields the joined per-record lines, at most
five of them; and a record with every key absent is formatted with the
placeholder title and empty link and snippet. -/
theorem web_search_results_contract (query : String) (results : List SearchRecord)
    (hlen : results.length ≤ 5) :
    (results = [] → web_search true (Except.ok results) query = "No results found.") ∧
    (results ≠ [] →
      web_search true (Except.ok results) query =
        String.intercalate "\n\n" (results.map formatRecord) ∧
      (results.map formatRecord).length ≤ 5) ∧
    formatRecord ⟨none, none, none, none⟩ =
      "- " ++ "No title" ++ "\n  " ++ "" ++ "\n  " ++ "" := by
  refine ⟨fun h => by subst h; rfl, fun h => ⟨?_, by simpa using hlen⟩, rfl⟩
  cases results with
  | nil => exact absurd rfl h
  | cons r rs => rfl

theorem web_search_results_contract_witness :
    web_search true (Except.ok []) "consumer law" = "No results found." ∧
    web_search true (Except.ok [⟨none, none, none, none⟩]) "consumer law" =
      String.intercalate "\n\n" ([(⟨none, none, none, none⟩ : SearchRecord)].map formatRecord) :=
  ⟨(web_search_results_contract "consumer law" [] (by decide)).1 rfl,
   ((web_search_results_contract "consumer law" [⟨none, none, none, none⟩]
      (by decide)).2.1 (List.cons_ne_nil _ _)).1⟩

/-- Claim C6: with the search library unavailable, `web_search` returns the
fixed unavailable message embedding the query verbatim, contains an
"unavailable" marker, and is independent of the search outcome (no search
is consulted). -/
theorem web_search_unavailable (query : String)
    (ddgText : Except String (List SearchRecord)) :
    web_search false ddgText query =
      "[Search unavailable] DuckDuckGo not installed. Query was: " ++ query ∧
    containsStr (web_search false ddgText query) query ∧
    containsStr (web_search false ddgText query) "unavailable" ∧
    ∀ other : Except String (List SearchRecord),
      web_search false ddgText query = web_search false other query :=
  ⟨rfl, containsStr_suffix _ _,
   containsStr_append_right _ _ _ (by decide), fun _ => rfl⟩

/-- Claim C7: whenever some port in `[start_port, end_port)` is free, the
selector returns the first (in ascending order) port of the range that the
loopback bind accepts; everything below the returned port was busy. The
probe state is one fixed predicate because each test bind is released
immediately, leaving the observable state unchanged. -/
theorem get_free_port_first_free (free : Nat → Bool) (start_port end_port : Nat)
    (h : ∃ p, start_port ≤ p ∧ p < end_port ∧ free p = true) :
    ∃ q, get_free_port free start_port end_port = Except.ok q ∧
      start_port ≤ q ∧ q < end_port ∧ free q = true ∧
      ∀ p, start_port ≤ p → p < q → free p = false := by
  obtain ⟨p, h1, h2, h3⟩ := h
  obtain ⟨q, hq, hq1, hq2, hq3, hq4⟩ :=
    get_free_port_scan_first free (end_port - start_port) start_port
      ⟨p, h1, by omega, h3⟩
  exact ⟨q, hq, hq1, by omega, hq3, hq4⟩

theorem get_free_port_first_free_witness :
    ∃ q, get_free_port (fun p => decide (p = 8001)) 8000 8003 = Except.ok q ∧
      8000 ≤ q ∧ q < 8003 ∧ decide (q = 8001) = true ∧
      ∀ p, 8000 ≤ p → p < q → decide (p = 8001) = false :=
  get_free_port_first_free (fun p => decide (p = 8001)) 8000 8003
    ⟨8001, by decide, by decide, by decide⟩

/-- Claim C8 (amended): if every port of the range is busy, the selector
raises the exhaustion error; its message is the fixed text
"No free ports available", which does not name the range. -/
theorem get_free_port_exhausted (free : Nat → Bool) (start_port end_port : Nat)
    (h : ∀ p, start_port ≤ p → p < end_port → free p = false) :
    get_free_port free start_port end_port =
      Except.error "No free ports available" :=
  get_free_port_scan_exhausted free (end_port - start_port) start_port
    (fun p h1 h2 => h p h1 (by omega))

theorem get_free_port_exhausted_witness :
    get_free_port (fun _ => false) 8000 8002 =
      Except.error "No free ports available" :=
  get_free_port_exhausted (fun _ => false) 8000 8002 (fun _ _ _ => rfl)

/-- Claim C8 counterexample: on the fully-busy range `[8000, 8002)` the
raised exhaustion error is the fixed message "No free ports available",
which contains neither bound of the range — indeed no digit at all — so the
error does not name the range as the claim states. -/
theorem get_free_port_error_unnamed_range :
    get_free_port (fun _ => false) 8000 8002 =
      Except.error "No free ports available" ∧
    ¬ containsStr "No free ports available" "8000" ∧
    ¬ containsStr "No free ports available" "8002" ∧
    ∀ c ∈ "No free ports available".data, c.isDigit = false :=
  ⟨rfl, by decide, by decide, by decide⟩

/-- Claim C9: on the no-model (mock) path every tool is deterministic —
identical inputs give identical outputs, the embedding holding no state
across invocations. -/
theorem tools_deterministic_mock (f₁ f₂ c₁ c₂ q₁ q₂ : String)
    (hf : f₁ = f₂) (hc : c₁ = c₂) (hq : q₁ = q₂) :
    rti_info none f₁ = rti_info none f₂ ∧
    divorce_info none f₁ = divorce_info none f₂ ∧
    consumer_complaint_info none f₁ = consumer_complaint_info none f₂ ∧
    property_dispute_info none f₁ = property_dispute_info none f₂ ∧
    workplace_issue_info none f₁ = workplace_issue_info none f₂ ∧
    family_law_info none f₁ = family_law_info none f₂ ∧
    cybercrime_info none f₁ = cybercrime_info none f₂ ∧
    guide_steps none c₁ = guide_steps none c₂ ∧
    draft_letter none c₁ f₁ = draft_letter none c₂ f₂ ∧
    ∀ ddg, web_search false ddg q₁ = web_search false ddg q₂ := by
  subst hf; subst hc; subst hq
  exact ⟨rfl, rfl, rfl, rfl, rfl, rfl, rfl, rfl, rfl, fun _ => rfl⟩

theorem tools_deterministic_mock_witness :
    rti_info none "my facts" = rti_info none "my facts" ∧
    divorce_info none "my facts" = divorce_info none "my facts" :=
  ⟨(tools_deterministic_mock "my facts" "my facts" "RTI" "RTI" "q" "q" rfl rfl rfl).1,
   (tools_deterministic_mock "my facts" "my facts" "RTI" "RTI" "q" "q" rfl rfl rfl).2.1⟩

/-- Claim C10: an empty range (start at or above end) raises the exhaustion
error immediately, and no bind is ever attempted: the outcome does not
depend on the port-state predicate at all. -/
theorem get_free_port_empty_range (free : Nat → Bool) (start_port end_port : Nat)
    (h : end_port ≤ start_port) :
    get_free_port free start_port end_port =
      Except.error "No free ports available" ∧
    ∀ free₂ : Nat → Bool,
      get_free_port free start_port end_port =
        get_free_port free₂ start_port end_port := by
  have hz : end_port - start_port = 0 := Nat.sub_eq_zero_of_le h
  constructor
  · show get_free_port_scan free (List.range' start_port (end_port - start_port)) = _
    rw [hz]
    rfl
  · intro free₂
    show get_free_port_scan free (List.range' start_port (end_port - start_port)) =
      get_free_port_scan free₂ (List.range' start_port (end_port - start_port))
    rw [hz]
    rfl

theorem get_free_port_empty_range_witness :
    get_free_port (fun _ => true) 9000 8000 =
      Except.error "No free ports available" :=
  (get_free_port_empty_range (fun _ => true) 9000 8000 (by decide)).1
